import Mathlib

/-!
Shallow embedding of the finance-app client logic (React/TypeScript):
the data model of the Firestore-backed data context, the report
aggregation helpers, the CSV export, the Gemini response handling and
its rule-based fallback, and the transaction-form amount validation.
Amounts are modelled as rationals, dates as calendar triples, and the
fallible external calls as Option-valued inputs.
-/

namespace FinanceApp

/-! ## Calendar dates (date-fns `startOfMonth` / `endOfMonth` etc.) -/

structure Date where
  year : Int
  month : Int
  day : Int
deriving DecidableEq, Repr

/-- Timestamp order on calendar dates, lexicographic by year, month, day. -/
def dateLe (a b : Date) : Bool :=
  decide (a.year < b.year) ||
    (a.year == b.year &&
      (decide (a.month < b.month) ||
        (a.month == b.month && decide (a.day ≤ b.day))))

def isLeapYear (y : Int) : Bool :=
  (y % 4 == 0 && y % 100 != 0) || y % 400 == 0

def daysInMonth (y m : Int) : Int :=
  if m == 2 then (if isLeapYear y then 29 else 28)
  else if m == 4 || m == 6 || m == 9 || m == 11 then 30
  else 31

/-- A calendar date that actually exists (month in range, day in range). -/
def validDate (d : Date) : Bool :=
  decide (1 ≤ d.month) && decide (d.month ≤ 12) &&
    decide (1 ≤ d.day) && decide (d.day ≤ daysInMonth d.year d.month)

def startOfMonth (d : Date) : Date := ⟨d.year, d.month, 1⟩

def endOfMonth (d : Date) : Date := ⟨d.year, d.month, daysInMonth d.year d.month⟩

def startOfYear (d : Date) : Date := ⟨d.year, 1, 1⟩

def endOfYear (d : Date) : Date := ⟨d.year, 12, 31⟩

/-! ## Data model (DataContext) -/

inductive TxType where
  | income
  | expense
deriving DecidableEq, Repr

structure Transaction where
  id : String
  accountId : String
  type : TxType
  amount : ℚ
  category : String
  description : String
  date : Date
  notes : Option String
  receiptUrl : Option String
  createdAt : Date
deriving DecidableEq, Repr

structure Account where
  id : String
  name : String
  type : String
  balance : ℚ
  createdAt : Date
deriving DecidableEq, Repr

/-! ## Amount validation of the two transaction forms -/

/-- TransactionsPage yup schema: `amount: yup.number().positive(...)`. -/
def manualAmountValid (amount : ℚ) : Bool := decide (0 < amount)

/-- UploadBillPage react-hook-form rule: `min: { value: 0.01 }`. -/
def uploadAmountValid (amount : ℚ) : Bool := decide ((0.01 : ℚ) ≤ amount)

/-! ## Monthly trend helpers -/

/-- One point of the ReportsPage yearly trend chart (`net` field). -/
structure TrendPoint where
  month : String
  income : ℚ
  expenses : ℚ
  net : ℚ
deriving DecidableEq, Repr

/-- One point of the Dashboard six-month trend chart (`savings` field). -/
structure DashTrendPoint where
  month : String
  income : ℚ
  expenses : ℚ
  savings : ℚ
deriving DecidableEq, Repr

/-- date-fns `format(date, 'MMM')`. -/
def monthName (m : Int) : String :=
  if m == 1 then "Jan" else if m == 2 then "Feb" else if m == 3 then "Mar"
  else if m == 4 then "Apr" else if m == 5 then "May" else if m == 6 then "Jun"
  else if m == 7 then "Jul" else if m == 8 then "Aug" else if m == 9 then "Sep"
  else if m == 10 then "Oct" else if m == 11 then "Nov" else "Dec"

def sumAmounts (ts : List Transaction) : ℚ := (ts.map (fun t => t.amount)).sum

/-- ReportsPage `getMonthlyTrend`: one entry for each of the 12 months of
the selected year, with income/expense sums over the month's window. -/
def getMonthlyTrend (transactions : List Transaction) (year : Date) : List TrendPoint :=
  (List.range 12).map (fun (i : ℕ) =>
    let monthDate : Date := ⟨year.year, (i : Int) + 1, 1⟩
    let monthStart := startOfMonth monthDate
    let monthEnd := endOfMonth monthDate
    let monthTransactions := transactions.filter
      (fun t => dateLe monthStart t.date && dateLe t.date monthEnd)
    let income := sumAmounts (monthTransactions.filter (fun t => t.type == TxType.income))
    let expenses := sumAmounts (monthTransactions.filter (fun t => t.type == TxType.expense))
    { month := monthName ((i : Int) + 1), income := income, expenses := expenses,
      net := income - expenses })

/-- Zero-based month index of a date, for date-fns month arithmetic. -/
def monthIdx (d : Date) : Int := d.year * 12 + (d.month - 1)

/-- First day of the month with the given zero-based month index. -/
def idxToMonthStart (i : Int) : Date := ⟨Int.ediv i 12, Int.emod i 12 + 1, 1⟩

/-- Dashboard `monthlyTrend`: one entry per month of
`eachMonthOfInterval(subMonths(currentMonth, 5), currentMonth)`. -/
def monthlyTrend (transactions : List Transaction) (currentMonth : Date) : List DashTrendPoint :=
  (List.range 6).map (fun (k : ℕ) =>
    let month := idxToMonthStart (monthIdx currentMonth - 5 + (k : Int))
    let monthStart := startOfMonth month
    let monthEnd := endOfMonth month
    let monthTransactions := transactions.filter
      (fun t => dateLe monthStart t.date && dateLe t.date monthEnd)
    let income := sumAmounts (monthTransactions.filter (fun t => t.type == TxType.income))
    let expenses := sumAmounts (monthTransactions.filter (fun t => t.type == TxType.expense))
    { month := monthName month.month, income := income, expenses := expenses,
      savings := income - expenses })

/-! ## Month-window characterisation -/

theorem dateLe_iff (a b : Date) :
    dateLe a b = true ↔
      (a.year < b.year ∨ (a.year = b.year ∧
        (a.month < b.month ∨ (a.month = b.month ∧ a.day ≤ b.day)))) := by
  simp [dateLe, Bool.or_eq_true, Bool.and_eq_true, decide_eq_true_eq, beq_iff_eq]

/-- For a valid date, lying between the first and the last day of a month
is the same as having that year and month. -/
theorem mem_month_iff (y m : Int) (d : Date) (hv : validDate d = true) :
    (dateLe ⟨y, m, 1⟩ d && dateLe d ⟨y, m, daysInMonth y m⟩) = true ↔
      (d.year = y ∧ d.month = m) := by
  simp only [validDate, Bool.and_eq_true, decide_eq_true_eq] at hv
  obtain ⟨⟨⟨h1, h2⟩, h3⟩, h4⟩ := hv
  rw [Bool.and_eq_true, dateLe_iff, dateLe_iff]
  dsimp only
  constructor
  · rintro ⟨ha, hb⟩
    omega
  · rintro ⟨rfl, rfl⟩
    omega

theorem mem_month_filter (y m : Int) (d : Date) (hv : validDate d = true) :
    (dateLe ⟨y, m, 1⟩ d && dateLe d ⟨y, m, daysInMonth y m⟩) =
      (d.year == y && d.month == m) := by
  rw [Bool.eq_iff_iff, mem_month_iff y m d hv]
  simp [Bool.and_eq_true, beq_iff_eq]

/-- Filtering a month window and then a transaction type is the same as
filtering on type, year and month at once, for valid transaction dates. -/
theorem month_filter_eq (transactions : List Transaction)
    (hv : transactions.all (fun t => validDate t.date) = true) (y m : Int) (p : TxType) :
    (transactions.filter (fun t =>
        dateLe ⟨y, m, 1⟩ t.date && dateLe t.date ⟨y, m, daysInMonth y m⟩)).filter
      (fun t => t.type == p) =
    transactions.filter (fun t =>
      t.type == p && (t.date.year == y && t.date.month == m)) := by
  rw [List.filter_filter]
  apply List.filter_congr
  intro t ht
  have hvt : validDate t.date = true := by
    rw [List.all_eq_true] at hv
    simpa using hv t ht
  rw [mem_month_filter y m t.date hvt]

theorem getMonthlyTrend_getElem (transactions : List Transaction) (year : Date)
    (i : ℕ) (h : i < (getMonthlyTrend transactions year).length) :
    (getMonthlyTrend transactions year)[i] =
      { month := monthName ((i : Int) + 1),
        income := sumAmounts ((transactions.filter (fun t =>
          dateLe ⟨year.year, (i : Int) + 1, 1⟩ t.date &&
            dateLe t.date ⟨year.year, (i : Int) + 1,
              daysInMonth year.year ((i : Int) + 1)⟩)).filter
          (fun t => t.type == TxType.income)),
        expenses := sumAmounts ((transactions.filter (fun t =>
          dateLe ⟨year.year, (i : Int) + 1, 1⟩ t.date &&
            dateLe t.date ⟨year.year, (i : Int) + 1,
              daysInMonth year.year ((i : Int) + 1)⟩)).filter
          (fun t => t.type == TxType.expense)),
        net := sumAmounts ((transactions.filter (fun t =>
          dateLe ⟨year.year, (i : Int) + 1, 1⟩ t.date &&
            dateLe t.date ⟨year.year, (i : Int) + 1,
              daysInMonth year.year ((i : Int) + 1)⟩)).filter
          (fun t => t.type == TxType.income)) -
          sumAmounts ((transactions.filter (fun t =>
          dateLe ⟨year.year, (i : Int) + 1, 1⟩ t.date &&
            dateLe t.date ⟨year.year, (i : Int) + 1,
              daysInMonth year.year ((i : Int) + 1)⟩)).filter
          (fun t => t.type == TxType.expense)) } := by
  unfold getMonthlyTrend at h ⊢
  rw [List.getElem_map, List.getElem_range]
  rfl

theorem monthlyTrend_getElem (transactions : List Transaction) (currentMonth : Date)
    (k : ℕ) (h : k < (monthlyTrend transactions currentMonth).length) :
    (monthlyTrend transactions currentMonth)[k] =
      (let j := monthIdx currentMonth - 5 + (k : Int)
      { month := monthName (idxToMonthStart j).month,
        income := sumAmounts ((transactions.filter (fun t =>
          dateLe ⟨(idxToMonthStart j).year, (idxToMonthStart j).month, 1⟩ t.date &&
            dateLe t.date ⟨(idxToMonthStart j).year, (idxToMonthStart j).month,
              daysInMonth (idxToMonthStart j).year (idxToMonthStart j).month⟩)).filter
          (fun t => t.type == TxType.income)),
        expenses := sumAmounts ((transactions.filter (fun t =>
          dateLe ⟨(idxToMonthStart j).year, (idxToMonthStart j).month, 1⟩ t.date &&
            dateLe t.date ⟨(idxToMonthStart j).year, (idxToMonthStart j).month,
              daysInMonth (idxToMonthStart j).year (idxToMonthStart j).month⟩)).filter
          (fun t => t.type == TxType.expense)),
        savings := sumAmounts ((transactions.filter (fun t =>
          dateLe ⟨(idxToMonthStart j).year, (idxToMonthStart j).month, 1⟩ t.date &&
            dateLe t.date ⟨(idxToMonthStart j).year, (idxToMonthStart j).month,
              daysInMonth (idxToMonthStart j).year (idxToMonthStart j).month⟩)).filter
          (fun t => t.type == TxType.income)) -
          sumAmounts ((transactions.filter (fun t =>
          dateLe ⟨(idxToMonthStart j).year, (idxToMonthStart j).month, 1⟩ t.date &&
            dateLe t.date ⟨(idxToMonthStart j).year, (idxToMonthStart j).month,
              daysInMonth (idxToMonthStart j).year (idxToMonthStart j).month⟩)).filter
          (fun t => t.type == TxType.expense)) } : DashTrendPoint) := by
  unfold monthlyTrend at h ⊢
  rw [List.getElem_map, List.getElem_range]
  rfl

/-- C1: the monthly trend helpers return exactly one entry per calendar
month of the covered period (12 months of the selected year for the
ReportsPage helper, the 6 months ending at the current month for the
Dashboard helper); each entry's income is the sum of the amounts of the
income transactions dated in that calendar month, its expenses the sum of
the expense transactions of that month, and its net/savings is income
minus expenses. -/
theorem monthly_trend_correct (transactions : List Transaction)
    (year currentMonth : Date)
    (hv : transactions.all (fun t => validDate t.date) = true) :
    ((getMonthlyTrend transactions year).length = 12 ∧
      ∀ i (h : i < (getMonthlyTrend transactions year).length),
        (getMonthlyTrend transactions year)[i].month = monthName ((i : Int) + 1) ∧
        (getMonthlyTrend transactions year)[i].income =
          sumAmounts (transactions.filter (fun t => t.type == TxType.income &&
            (t.date.year == year.year && t.date.month == (i : Int) + 1))) ∧
        (getMonthlyTrend transactions year)[i].expenses =
          sumAmounts (transactions.filter (fun t => t.type == TxType.expense &&
            (t.date.year == year.year && t.date.month == (i : Int) + 1))) ∧
        (getMonthlyTrend transactions year)[i].net =
          (getMonthlyTrend transactions year)[i].income -
            (getMonthlyTrend transactions year)[i].expenses) ∧
    ((monthlyTrend transactions currentMonth).length = 6 ∧
      ∀ k (h : k < (monthlyTrend transactions currentMonth).length),
        (monthlyTrend transactions currentMonth)[k].month =
          monthName (idxToMonthStart (monthIdx currentMonth - 5 + (k : Int))).month ∧
        (monthlyTrend transactions currentMonth)[k].income =
          sumAmounts (transactions.filter (fun t => t.type == TxType.income &&
            (t.date.year == (idxToMonthStart (monthIdx currentMonth - 5 + (k : Int))).year &&
              t.date.month == (idxToMonthStart (monthIdx currentMonth - 5 + (k : Int))).month))) ∧
        (monthlyTrend transactions currentMonth)[k].expenses =
          sumAmounts (transactions.filter (fun t => t.type == TxType.expense &&
            (t.date.year == (idxToMonthStart (monthIdx currentMonth - 5 + (k : Int))).year &&
              t.date.month == (idxToMonthStart (monthIdx currentMonth - 5 + (k : Int))).month))) ∧
        (monthlyTrend transactions currentMonth)[k].savings =
          (monthlyTrend transactions currentMonth)[k].income -
            (monthlyTrend transactions currentMonth)[k].expenses) := by
  refine ⟨⟨by simp only [getMonthlyTrend, List.length_map, List.length_range], ?_⟩,
    ⟨by simp only [monthlyTrend, List.length_map, List.length_range], ?_⟩⟩
  · intro i h
    rw [getMonthlyTrend_getElem transactions year i h,
      month_filter_eq transactions hv year.year ((i : Int) + 1) TxType.income,
      month_filter_eq transactions hv year.year ((i : Int) + 1) TxType.expense]
    exact ⟨rfl, rfl, rfl, rfl⟩
  · intro k h
    rw [monthlyTrend_getElem transactions currentMonth k h]
    dsimp only
    rw [month_filter_eq transactions hv _ _ TxType.income,
      month_filter_eq transactions hv _ _ TxType.expense]
    exact ⟨rfl, rfl, rfl, rfl⟩

/-! ## JavaScript value model for the parsed Gemini JSON -/

inductive JsVal where
  | undef
  | nullv
  | boolv (b : Bool)
  | num (q : ℚ)
  | str (s : String)
  | arr (elems : List JsVal)
deriving BEq, Repr

/-- JavaScript truthiness of a value (arrays are always truthy). -/
def JsVal.truthy : JsVal → Bool
  | JsVal.undef => false
  | JsVal.nullv => false
  | JsVal.boolv b => b
  | JsVal.num q => decide (q ≠ 0)
  | JsVal.str s => decide (s ≠ "")
  | JsVal.arr _ => true

/-- JavaScript `a || b`. -/
def jsOr (a b : JsVal) : JsVal := if a.truthy then a else b

/-! ## Regex extraction of a JSON fragment from the model response -/

def braceOpen : Char := '\x7b'

def braceClose : Char := '\x7d'

/-- Drop everything before the first occurrence of `c`; `none` if absent. -/
def dropBeforeFirst (c : Char) : List Char → Option (List Char)
  | [] => none
  | x :: rest => if x = c then some (x :: rest) else dropBeforeFirst c rest

/-- Keep everything up to the last occurrence of `c`; `none` if absent. -/
def takeToLast (c : Char) (cs : List Char) : Option (List Char) :=
  match cs.reverse.dropWhile (fun x => x ≠ c) with
  | [] => none
  | l => some l.reverse

/-- The greedy regex `/o[\s\S]*c/` for delimiters `o`, `c`: from the first
`o` to the last `c` after it. -/
def regexSpanMatch (o c : Char) (s : String) : Option String :=
  match dropBeforeFirst o s.data with
  | none => none
  | some suffixPart =>
    match takeToLast c suffixPart with
    | none => none
    | some m => some (String.mk m)

/-- `text.match(/\x7b[\s\S]*\x7d/)` of `extractReceiptData`. -/
def jsonObjectMatch (s : String) : Option String := regexSpanMatch braceOpen braceClose s

/-- `text.match(/\[[\s\S]*\]/)` of `generateFinancialInsights`. -/
def jsonArrayMatch (s : String) : Option String := regexSpanMatch '[' ']' s

def isWhitespaceChar (c : Char) : Bool :=
  c = ' ' || c = '\t' || c = '\n' || c = '\r'

/-- JavaScript `text.trim()`. -/
def textTrim (s : String) : String :=
  String.mk (((s.data.dropWhile isWhitespaceChar).reverse.dropWhile isWhitespaceChar).reverse)

/-! ## Receipt extraction (`extractReceiptData`) -/

/-- Outcome of the Gemini API call: `failure` covers a thrown exception or
a missing response object, `success` carries the response text. -/
inductive ApiResponse where
  | failure
  | success (text : String)

/-- The parsed JSON object, field values as JavaScript values. -/
structure ParsedReceipt where
  vendor : JsVal
  amount : JsVal
  date : JsVal
  category : JsVal
  items : JsVal
deriving BEq, Repr

structure ExtractedReceiptData where
  vendor : JsVal
  amount : JsVal
  date : JsVal
  category : JsVal
  items : JsVal
deriving BEq, Repr

/-- The validate-and-clean step of the successful parse. -/
def cleanReceipt (d : ParsedReceipt) : ExtractedReceiptData :=
  { vendor := jsOr d.vendor JsVal.nullv
    amount := match d.amount with
      | JsVal.num q => JsVal.num q
      | _ => JsVal.nullv
    date := jsOr d.date JsVal.nullv
    category := jsOr d.category (JsVal.str "Others")
    items := match d.items with
      | JsVal.arr l => JsVal.arr l
      | _ => JsVal.arr [] }

/-- The catch-block fallback: hardcoded mock data. `todayStr` models
`new Date().toISOString().split('T')[0]` and `rand` the random draw of
`Math.floor(Math.random() * 1000)`. -/
def receiptFallback (todayStr : String) (rand : ℕ) : ExtractedReceiptData :=
  { vendor := JsVal.str "Sample Store"
    amount := JsVal.num ((rand % 1000 : ℕ) + 100)
    date := JsVal.str todayStr
    category := JsVal.str "Shopping"
    items := JsVal.undef }

/-- The try-block of `extractReceiptData` up to `JSON.parse`: `none` is a
thrown exception (no/empty response, no regex match, parse error). -/
def parsedReceiptOf (resp : ApiResponse) (parse : String → Option ParsedReceipt) :
    Option ParsedReceipt :=
  match resp with
  | ApiResponse.failure => none
  | ApiResponse.success text =>
    if textTrim text = "" then none
    else
      match jsonObjectMatch text with
      | none => none
      | some j => parse j

def extractReceiptData (resp : ApiResponse) (parse : String → Option ParsedReceipt)
    (todayStr : String) (rand : ℕ) : ExtractedReceiptData :=
  match parsedReceiptOf resp parse with
  | none => receiptFallback todayStr rand
  | some d => cleanReceipt d

/-! ## Number formatting used by the fallback insight messages -/

def digitChar (n : ℕ) : Char :=
  if n % 10 = 0 then '0' else if n % 10 = 1 then '1' else if n % 10 = 2 then '2'
  else if n % 10 = 3 then '3' else if n % 10 = 4 then '4' else if n % 10 = 5 then '5'
  else if n % 10 = 6 then '6' else if n % 10 = 7 then '7' else if n % 10 = 8 then '8'
  else '9'

def natDigitsAux : ℕ → ℕ → List Char
  | 0, _ => []
  | fuel + 1, n =>
    if n < 10 then [digitChar n]
    else natDigitsAux fuel (n / 10) ++ [digitChar (n % 10)]

def natDigits (n : ℕ) : List Char := natDigitsAux (n + 1) n

def natToString (n : ℕ) : String := String.mk (natDigits n)

def intToString (i : ℤ) : String :=
  if i < 0 then "-" ++ natToString i.natAbs else natToString i.natAbs

/-- Model of JavaScript number display for a rational amount. -/
def ratToString (q : ℚ) : String :=
  if q.den = 1 then intToString q.num
  else intToString q.num ++ "/" ++ natToString q.den

/-- Model of JavaScript `x.toFixed(1)`. -/
def toFixed1 (q : ℚ) : String :=
  let m : ℤ := round (q * 10)
  (if m < 0 then "-" else "") ++ natToString (m.natAbs / 10) ++ "." ++ natToString (m.natAbs % 10)

/-! ## Financial insights (`generateFinancialInsights` and its fallback) -/

structure ParsedInsight where
  type : JsVal
  title : JsVal
  message : JsVal
  recommendation : JsVal
deriving BEq, Repr

structure AnalysisInsight where
  type : JsVal
  title : JsVal
  message : JsVal
  recommendation : JsVal
deriving BEq, Repr

/-- Default substitution applied to each parsed insight. -/
def cleanInsight (i : ParsedInsight) : AnalysisInsight :=
  { type := jsOr i.type (JsVal.str "info")
    title := jsOr i.title (JsVal.str "Financial Insight")
    message := jsOr i.message (JsVal.str "No message available")
    recommendation := if i.recommendation.truthy then i.recommendation else JsVal.undef }

def totalIncomeOf (transactions : List Transaction) : ℚ :=
  sumAmounts (transactions.filter (fun t => t.type == TxType.income))

def totalExpensesOf (transactions : List Transaction) : ℚ :=
  sumAmounts (transactions.filter (fun t => t.type == TxType.expense))

def savingsRateOf (transactions : List Transaction) : ℚ :=
  if 0 < totalIncomeOf transactions then
    ((totalIncomeOf transactions - totalExpensesOf transactions) / totalIncomeOf transactions) * 100
  else 0

/-- The expense-category grouping reduce, with JavaScript object-key
semantics: an existing key is updated in place, a new key is appended. -/
def addToCategory (acc : List (String × ℚ)) (cat : String) (amt : ℚ) : List (String × ℚ) :=
  match acc with
  | [] => [(cat, amt)]
  | (c, v) :: rest =>
    if c = cat then (c, v + amt) :: rest else (c, v) :: addToCategory rest cat amt

def categoryTotals (transactions : List Transaction) : List (String × ℚ) :=
  (transactions.filter (fun t => t.type == TxType.expense)).foldl
    (fun acc t => addToCategory acc t.category t.amount) []

/-- `Object.entries(...).sort(([,a],[,b]) => b - a)`: stable sort by
amount, descending. -/
def sortByValueDesc (l : List (String × ℚ)) : List (String × ℚ) :=
  l.mergeSort (fun a b => decide (b.2 ≤ a.2))

def savingsRateInsights (transactions : List Transaction) : List AnalysisInsight :=
  let savingsRate := savingsRateOf transactions
  if 20 < savingsRate then
    [{ type := JsVal.str "positive", title := JsVal.str "Excellent Savings Rate",
       message := JsVal.str ("Your savings rate is " ++ toFixed1 savingsRate ++
         "%. You\x27re doing great at managing your finances!"),
       recommendation := JsVal.str "Consider investing your surplus savings for better returns." }]
  else if savingsRate < 10 ∧ 0 ≤ savingsRate then
    [{ type := JsVal.str "warning", title := JsVal.str "Low Savings Rate",
       message := JsVal.str ("Your savings rate is " ++ toFixed1 savingsRate ++
         "%. This is below the recommended 20%."),
       recommendation := JsVal.str "Review your expenses and identify areas where you can cut back." }]
  else if savingsRate < 0 then
    [{ type := JsVal.str "warning", title := JsVal.str "Spending More Than Earning",
       message := JsVal.str ("You\x27re spending ₹" ++
         ratToString (abs (totalIncomeOf transactions - totalExpensesOf transactions)) ++
         " more than you earn."),
       recommendation := JsVal.str "Urgently review your expenses and create a budget to avoid debt." }]
  else []

def topCategoryInsights (transactions : List Transaction) : List AnalysisInsight :=
  match (sortByValueDesc (categoryTotals transactions)).head? with
  | some top =>
    if 0 < totalExpensesOf transactions then
      [{ type := JsVal.str "info", title := JsVal.str "Top Spending Category",
         message := JsVal.str (top.1 ++ " accounts for " ++
           toFixed1 ((top.2 / totalExpensesOf transactions) * 100) ++
           "% of your expenses (₹" ++ ratToString top.2 ++ ")."),
         recommendation := JsVal.str
           "Monitor this category closely and look for optimization opportunities." }]
    else []
  | none => []

def txCountInsights (transactions : List Transaction) : List AnalysisInsight :=
  if transactions.length < 5 then
    [{ type := JsVal.str "info", title := JsVal.str "More Data Needed",
       message := JsVal.str "Add more transactions to get better financial insights and patterns.",
       recommendation := JsVal.str
         "Try to record all your income and expenses for comprehensive analysis." }]
  else []

def gettingStartedInsight : AnalysisInsight :=
  { type := JsVal.str "info", title := JsVal.str "Getting Started",
    message := JsVal.str "Start adding transactions to get personalized financial insights.",
    recommendation := JsVal.str
      "Add your income and expense transactions to see detailed analysis." }

def generateFallbackInsights (transactions : List Transaction) : List AnalysisInsight :=
  if transactions.length = 0 then [gettingStartedInsight]
  else
    savingsRateInsights transactions ++ topCategoryInsights transactions ++
      txCountInsights transactions

/-- The try-block of `generateFinancialInsights` up to the validated
`JSON.parse`: `none` is any thrown error (no/empty response, no regex
match, parse error, parsed value not an array). -/
def parsedInsightsOf (resp : ApiResponse) (parse : String → Option (List ParsedInsight)) :
    Option (List ParsedInsight) :=
  match resp with
  | ApiResponse.failure => none
  | ApiResponse.success text =>
    if textTrim text = "" then none
    else
      match jsonArrayMatch text with
      | none => none
      | some j => parse j

def generateFinancialInsights (resp : ApiResponse)
    (parse : String → Option (List ParsedInsight))
    (transactions : List Transaction) : List AnalysisInsight :=
  match parsedInsightsOf resp parse with
  | none => generateFallbackInsights transactions
  | some l => l.map cleanInsight

/-! ## Claims about the Gemini handling -/

/-- C2: whenever `extractReceiptData` does not obtain a parseable JSON
object from the model response (thrown call, empty response, no regex
match, or parse error), it swallows the error and returns the hardcoded
placeholder record: vendor "Sample Store", category "Shopping", the
current date string, and the random placeholder amount. -/
theorem extractReceiptData_fallback_on_failure (resp : ApiResponse)
    (parse : String → Option ParsedReceipt) (todayStr : String) (rand : ℕ)
    (h : parsedReceiptOf resp parse = none) :
    extractReceiptData resp parse todayStr rand =
      { vendor := JsVal.str "Sample Store", amount := JsVal.num ((rand % 1000 : ℕ) + 100),
        date := JsVal.str todayStr, category := JsVal.str "Shopping",
        items := JsVal.undef } := by
  unfold extractReceiptData
  rw [h]
  rfl

theorem extractReceiptData_fallback_witness :
    parsedReceiptOf ApiResponse.failure (fun _ => none) = none ∧
    extractReceiptData ApiResponse.failure (fun _ => none) "2024-01-15" 3 =
      { vendor := JsVal.str "Sample Store", amount := JsVal.num ((3 % 1000 : ℕ) + 100),
        date := JsVal.str "2024-01-15", category := JsVal.str "Shopping",
        items := JsVal.undef } :=
  ⟨rfl, extractReceiptData_fallback_on_failure ApiResponse.failure (fun _ => none)
    "2024-01-15" 3 rfl⟩

/-- C3 counterexample: the parsed `type` field is passed through without
validation, so a parsed insight whose type is the string "hacked" is
returned with that type, which is none of "positive", "warning", "info". -/
theorem insight_type_unvalidated_counterexample :
    (generateFinancialInsights (ApiResponse.success "[1]")
        (fun _ => some [⟨JsVal.str "hacked", JsVal.undef, JsVal.undef, JsVal.undef⟩])
        []).map (fun i => i.type) = [JsVal.str "hacked"] ∧
    JsVal.str "hacked" ≠ JsVal.str "positive" ∧
    JsVal.str "hacked" ≠ JsVal.str "warning" ∧
    JsVal.str "hacked" ≠ JsVal.str "info" := by
  refine ⟨rfl, by simp, by simp, by simp⟩

/-- C3 (amended): when a JSON array is parsed out of the response, the
returned insights are the parsed ones with missing (falsy) fields
replaced by defaults — type 'info', title 'Financial Insight', message
'No message available' — but the type field is not validated: a truthy
parsed type is passed through unchanged, so only the defaulted type is
guaranteed to lie in the declared union. -/
theorem insight_defaults_correct (resp : ApiResponse)
    (parse : String → Option (List ParsedInsight)) (transactions : List Transaction)
    (l : List ParsedInsight) (h : parsedInsightsOf resp parse = some l) :
    generateFinancialInsights resp parse transactions = l.map cleanInsight ∧
    ∀ i ∈ l,
      ((cleanInsight i).type = if i.type.truthy then i.type else JsVal.str "info") ∧
      ((cleanInsight i).title =
        if i.title.truthy then i.title else JsVal.str "Financial Insight") ∧
      ((cleanInsight i).message =
        if i.message.truthy then i.message else JsVal.str "No message available") := by
  refine ⟨by unfold generateFinancialInsights; rw [h], ?_⟩
  intro i _
  exact ⟨rfl, rfl, rfl⟩

theorem insight_defaults_witness :
    parsedInsightsOf (ApiResponse.success "[1]")
        (fun _ => some [⟨JsVal.undef, JsVal.undef, JsVal.undef, JsVal.undef⟩]) =
      some [⟨JsVal.undef, JsVal.undef, JsVal.undef, JsVal.undef⟩] ∧
    generateFinancialInsights (ApiResponse.success "[1]")
        (fun _ => some [⟨JsVal.undef, JsVal.undef, JsVal.undef, JsVal.undef⟩]) [] =
      [⟨JsVal.str "info", JsVal.str "Financial Insight",
        JsVal.str "No message available", JsVal.undef⟩] :=
  ⟨rfl, (insight_defaults_correct (ApiResponse.success "[1]")
    (fun _ => some [⟨JsVal.undef, JsVal.undef, JsVal.undef, JsVal.undef⟩]) []
    [⟨JsVal.undef, JsVal.undef, JsVal.undef, JsVal.undef⟩] rfl).1⟩

/-! ## Claims about the fallback insight rules -/

theorem addToCategory_ne_nil (acc : List (String × ℚ)) (cat : String) (amt : ℚ) :
    addToCategory acc cat amt ≠ [] := by
  unfold addToCategory
  cases acc with
  | nil => simp
  | cons p rest =>
    obtain ⟨c, v⟩ := p
    dsimp only
    split <;> simp

theorem foldl_addToCategory_ne_nil (l : List Transaction) (acc : List (String × ℚ))
    (h : acc ≠ [] ∨ l ≠ []) :
    l.foldl (fun acc t => addToCategory acc t.category t.amount) acc ≠ [] := by
  induction l generalizing acc with
  | nil =>
    rcases h with h | h
    · simpa using h
    · exact absurd rfl h
  | cons t rest ih =>
    rw [List.foldl_cons]
    exact ih _ (Or.inl (addToCategory_ne_nil _ _ _))

theorem categoryTotals_ne_nil (transactions : List Transaction)
    (h : transactions.filter (fun t => t.type == TxType.expense) ≠ []) :
    categoryTotals transactions ≠ [] :=
  foldl_addToCategory_ne_nil _ _ (Or.inr h)

theorem sortByValueDesc_ne_nil (l : List (String × ℚ)) (h : l ≠ []) :
    sortByValueDesc l ≠ [] := by
  intro hnil
  have hp := List.mergeSort_perm l (fun a b => decide (b.2 ≤ a.2))
  rw [sortByValueDesc] at hnil
  rw [hnil] at hp
  exact h hp.symm.eq_nil

theorem sumAmounts_pos_ne_nil (l : List Transaction) (h : 0 < sumAmounts l) : l ≠ [] := by
  intro hnil
  rw [hnil] at h
  simp [sumAmounts] at h

/-- With positive total income and a savings rate at most 20, total
expenses are positive. -/
theorem expenses_pos_of_rate_le (transactions : List Transaction)
    (hinc : 0 < totalIncomeOf transactions)
    (hle : savingsRateOf transactions ≤ 20) :
    0 < totalExpensesOf transactions := by
  rw [savingsRateOf, if_pos hinc, div_mul_eq_mul_div, div_le_iff₀ hinc] at hle
  nlinarith [hle, hinc]

/-- C7: on the rule-based fallback path, every non-empty transaction list
whose computed savings rate exceeds 20 yields an insight of type
'positive' about the savings rate. -/
theorem fallback_positive_savings_insight (transactions : List Transaction)
    (h1 : transactions ≠ []) (h2 : 20 < savingsRateOf transactions) :
    ∃ i ∈ generateFallbackInsights transactions,
      i.type = JsVal.str "positive" ∧ i.title = JsVal.str "Excellent Savings Rate" := by
  have hlen : ¬ transactions.length = 0 := by simpa using h1
  unfold generateFallbackInsights
  rw [if_neg hlen]
  simp only [savingsRateInsights]
  rw [if_pos h2]
  exact ⟨_, List.mem_append_left _ (List.mem_append_left _ (List.mem_cons_self _ _)),
    rfl, rfl⟩

def txIncomeW : Transaction :=
  ⟨"t1", "a1", TxType.income, 100, "Salary", "March salary", ⟨2024, 3, 15⟩,
    none, none, ⟨2024, 3, 15⟩⟩

theorem fallback_positive_savings_witness :
    [txIncomeW] ≠ [] ∧ 20 < savingsRateOf [txIncomeW] ∧
    ∃ i ∈ generateFallbackInsights [txIncomeW],
      i.type = JsVal.str "positive" ∧ i.title = JsVal.str "Excellent Savings Rate" := by
  have hfe : List.filter (fun t => t.type == TxType.expense) [txIncomeW] = [] := rfl
  have hfi : List.filter (fun t => t.type == TxType.income) [txIncomeW] = [txIncomeW] := rfl
  have hrate : 20 < savingsRateOf [txIncomeW] := by
    simp only [savingsRateOf, totalIncomeOf, totalExpensesOf]
    rw [hfe, hfi]
    norm_num [sumAmounts, txIncomeW]
  exact ⟨by simp, hrate, fallback_positive_savings_insight [txIncomeW] (by simp) hrate⟩

/-- C9: `generateFallbackInsights` never returns an empty list; on the
empty transaction list it returns exactly one insight, of type 'info'. -/
theorem fallback_insights_nonempty (transactions : List Transaction) :
    generateFallbackInsights transactions ≠ [] ∧
    (generateFallbackInsights []).length = 1 ∧
    ∀ i ∈ generateFallbackInsights [], i.type = JsVal.str "info" := by
  refine ⟨?_, by simp [generateFallbackInsights], ?_⟩
  · by_cases hlen : transactions.length = 0
    · simp [generateFallbackInsights, hlen]
    · unfold generateFallbackInsights
      rw [if_neg hlen]
      suffices hor : savingsRateInsights transactions ≠ [] ∨
          topCategoryInsights transactions ≠ [] by
        rcases hor with hne | hne <;> simp [List.append_eq_nil] <;> tauto
      by_cases hinc : 0 < totalIncomeOf transactions
      · by_cases hA : 20 < savingsRateOf transactions
        · left
          simp only [savingsRateInsights]
          rw [if_pos hA]
          simp
        · by_cases hB : savingsRateOf transactions < 10
          · left
            simp only [savingsRateInsights]
            rw [if_neg hA]
            by_cases h0 : 0 ≤ savingsRateOf transactions
            · rw [if_pos ⟨hB, h0⟩]
              simp
            · rw [if_neg (by tauto), if_pos (by linarith)]
              simp
          · right
            have hexp : 0 < totalExpensesOf transactions :=
              expenses_pos_of_rate_le transactions hinc (by linarith)
            have hfil : transactions.filter (fun t => t.type == TxType.expense) ≠ [] :=
              sumAmounts_pos_ne_nil _ hexp
            have hcat := categoryTotals_ne_nil transactions hfil
            have hsort := sortByValueDesc_ne_nil _ hcat
            obtain ⟨top, rest, heq⟩ :=
              List.exists_cons_of_ne_nil hsort
            simp only [topCategoryInsights]
            rw [heq]
            simp only [List.head?_cons]
            rw [if_pos hexp]
            simp
      · left
        have hr : savingsRateOf transactions = 0 := by
          rw [savingsRateOf, if_neg hinc]
        simp only [savingsRateInsights]
        rw [if_neg (by rw [hr]; norm_num), if_pos (by rw [hr]; norm_num)]
        simp
  · intro i hi
    simp [generateFallbackInsights] at hi
    subst hi
    rfl

theorem fallback_insights_nonempty_witness :
    generateFallbackInsights [txIncomeW] ≠ [] :=
  (fallback_insights_nonempty [txIncomeW]).1

/-! ## Claims about the form validation -/

/-- C6: both the manual transaction form (yup `positive()`) and the
receipt-upload form (`min: 0.01`) reject every zero or negative amount. -/
theorem amount_validation_rejects_nonpositive (a : ℚ) (h : a ≤ 0) :
    manualAmountValid a = false ∧ uploadAmountValid a = false := by
  constructor
  · simp only [manualAmountValid, decide_eq_false_iff_not, not_lt]
    exact h
  · simp only [uploadAmountValid, decide_eq_false_iff_not, not_le]
    linarith

theorem amount_validation_witness :
    (0 : ℚ) ≤ 0 ∧ manualAmountValid 0 = false ∧ uploadAmountValid 0 = false :=
  ⟨le_refl 0, (amount_validation_rejects_nonpositive 0 (le_refl 0)).1,
    (amount_validation_rejects_nonpositive 0 (le_refl 0)).2⟩

theorem monthly_trend_witness :
    ([txIncomeW].all (fun t => validDate t.date) = true) ∧
    (getMonthlyTrend [txIncomeW] ⟨2024, 1, 1⟩).length = 12 :=
  ⟨by decide,
    (monthly_trend_correct [txIncomeW] ⟨2024, 1, 1⟩ ⟨2024, 6, 1⟩ (by decide)).1.1⟩

/-! ## CRUD operations of the data context (DataProvider) -/

inductive ToastKind where
  | success
  | error
deriving DecidableEq, Repr

structure Toast where
  kind : ToastKind
  msg : String
deriving DecidableEq, Repr

/-- Observable outcome of one CRUD invocation: the returned/thrown result,
the toasts shown, and how many times the Firestore SDK was called. -/
structure CrudOutcome (ε : Type) where
  result : Except ε Unit
  toasts : List Toast
  sdkCalls : ℕ

/-- The shared try/catch shape: await the SDK call once, toast success,
or toast an error and re-throw it. -/
def crudCall {ε : Type} (dbCall : Except ε Unit) (okMsg errMsg : String) : CrudOutcome ε :=
  match dbCall with
  | Except.ok _ => ⟨Except.ok (), [⟨ToastKind.success, okMsg⟩], 1⟩
  | Except.error e => ⟨Except.error e, [⟨ToastKind.error, errMsg⟩], 1⟩

def addAccount {ε : Type} (user : Option String) (dbCall : Except ε Unit) : CrudOutcome ε :=
  match user with
  | none => ⟨Except.ok (), [], 0⟩
  | some _ => crudCall dbCall "Account added successfully!" "Failed to add account"

def updateAccount {ε : Type} (dbCall : Except ε Unit) : CrudOutcome ε :=
  crudCall dbCall "Account updated successfully!" "Failed to update account"

def deleteAccount {ε : Type} (dbCall : Except ε Unit) : CrudOutcome ε :=
  crudCall dbCall "Account deleted successfully!" "Failed to delete account"

def addTransaction {ε : Type} (user : Option String) (dbCall : Except ε Unit) : CrudOutcome ε :=
  match user with
  | none => ⟨Except.ok (), [], 0⟩
  | some _ => crudCall dbCall "Transaction added successfully!" "Failed to add transaction"

def updateTransaction {ε : Type} (dbCall : Except ε Unit) : CrudOutcome ε :=
  crudCall dbCall "Transaction updated successfully!" "Failed to update transaction"

def deleteTransaction {ε : Type} (dbCall : Except ε Unit) : CrudOutcome ε :=
  crudCall dbCall "Transaction deleted successfully!" "Failed to delete transaction"

def addInvestment {ε : Type} (user : Option String) (dbCall : Except ε Unit) : CrudOutcome ε :=
  match user with
  | none => ⟨Except.ok (), [], 0⟩
  | some _ => crudCall dbCall "Investment added successfully!" "Failed to add investment"

def updateInvestment {ε : Type} (dbCall : Except ε Unit) : CrudOutcome ε :=
  crudCall dbCall "Investment updated successfully!" "Failed to update investment"

def deleteInvestment {ε : Type} (dbCall : Except ε Unit) : CrudOutcome ε :=
  crudCall dbCall "Investment deleted successfully!" "Failed to delete investment"

/-- C4: for every CRUD operation of the data context, when the SDK call
throws, the operation shows exactly one error toast and re-throws the same
error, and the SDK call is attempted exactly once — no retry. -/
theorem crud_error_handling {ε : Type} (e : ε) (uid : String) :
    addAccount (some uid) (Except.error e) =
      ⟨Except.error e, [⟨ToastKind.error, "Failed to add account"⟩], 1⟩ ∧
    updateAccount (Except.error e) =
      ⟨Except.error e, [⟨ToastKind.error, "Failed to update account"⟩], 1⟩ ∧
    deleteAccount (Except.error e) =
      ⟨Except.error e, [⟨ToastKind.error, "Failed to delete account"⟩], 1⟩ ∧
    addTransaction (some uid) (Except.error e) =
      ⟨Except.error e, [⟨ToastKind.error, "Failed to add transaction"⟩], 1⟩ ∧
    updateTransaction (Except.error e) =
      ⟨Except.error e, [⟨ToastKind.error, "Failed to update transaction"⟩], 1⟩ ∧
    deleteTransaction (Except.error e) =
      ⟨Except.error e, [⟨ToastKind.error, "Failed to delete transaction"⟩], 1⟩ ∧
    addInvestment (some uid) (Except.error e) =
      ⟨Except.error e, [⟨ToastKind.error, "Failed to add investment"⟩], 1⟩ ∧
    updateInvestment (Except.error e) =
      ⟨Except.error e, [⟨ToastKind.error, "Failed to update investment"⟩], 1⟩ ∧
    deleteInvestment (Except.error e) =
      ⟨Except.error e, [⟨ToastKind.error, "Failed to delete investment"⟩], 1⟩ :=
  ⟨rfl, rfl, rfl, rfl, rfl, rfl, rfl, rfl, rfl⟩

/-! ## Firestore store model: frame property of the transaction ops -/

/-- One Firestore document: its collection name, id, and field data. -/
structure FDoc (δ : Type) where
  coll : String
  docId : String
  fields : δ

def addDocStore {δ : Type} (s : List (FDoc δ)) (c docId : String) (d : δ) : List (FDoc δ) :=
  s ++ [⟨c, docId, d⟩]

def updateDocStore {δ : Type} (s : List (FDoc δ)) (c docId : String) (upd : δ → δ) :
    List (FDoc δ) :=
  s.map (fun x =>
    if x.coll = c ∧ x.docId = docId then ⟨x.coll, x.docId, upd x.fields⟩ else x)

def deleteDocStore {δ : Type} (s : List (FDoc δ)) (c docId : String) : List (FDoc δ) :=
  s.filter (fun x => !(x.coll == c && x.docId == docId))

/-- The documents of one collection, e.g. the accounts. -/
def collDocs {δ : Type} (s : List (FDoc δ)) (c : String) : List (FDoc δ) :=
  s.filter (fun x => x.coll == c)

/-- `addDoc(collection(db, 'transactions'), ...)`. -/
def addTransactionDb {δ : Type} (s : List (FDoc δ)) (docId : String) (d : δ) : List (FDoc δ) :=
  addDocStore s "transactions" docId d

/-- `updateDoc(doc(db, 'transactions', id), updates)`. -/
def updateTransactionDb {δ : Type} (s : List (FDoc δ)) (docId : String) (upd : δ → δ) :
    List (FDoc δ) :=
  updateDocStore s "transactions" docId upd

/-- `deleteDoc(doc(db, 'transactions', id))`. -/
def deleteTransactionDb {δ : Type} (s : List (FDoc δ)) (docId : String) : List (FDoc δ) :=
  deleteDocStore s "transactions" docId

/-- C5: adding, updating or deleting a transaction leaves every document
of the accounts collection — balance and all other fields — unchanged. -/
theorem transaction_ops_preserve_accounts {δ : Type} (s : List (FDoc δ))
    (docId : String) (d : δ) (upd : δ → δ) :
    collDocs (addTransactionDb s docId d) "accounts" = collDocs s "accounts" ∧
    collDocs (updateTransactionDb s docId upd) "accounts" = collDocs s "accounts" ∧
    collDocs (deleteTransactionDb s docId) "accounts" = collDocs s "accounts" := by
  refine ⟨?_, ?_, ?_⟩
  · simp [collDocs, addTransactionDb, addDocStore, List.filter_append]
  · unfold collDocs updateTransactionDb updateDocStore
    induction s with
    | nil => rfl
    | cons x xs ih =>
      rw [List.map_cons, List.filter_cons, List.filter_cons]
      by_cases hc : x.coll = "transactions" ∧ x.docId = docId
      · rw [if_pos hc]
        have hfalse : (x.coll == "accounts") = false := by
          rw [hc.1]
          decide
        simp only [hfalse]
        simpa using ih
      · rw [if_neg hc]
        cases hxa : (x.coll == "accounts") <;> simp [hxa, ih]
  · unfold collDocs deleteTransactionDb deleteDocStore
    rw [List.filter_filter]
    apply List.filter_congr
    intro x _
    cases hxa : (x.coll == "accounts")
    · simp [hxa]
    · have hxt : (x.coll == "transactions") = false := by
        rw [beq_iff_eq] at hxa
        rw [hxa]
        decide
      simp [hxa, hxt]

/-! ## CSV export (ReportsPage `downloadCSV`) -/

inductive ReportType where
  | monthly
  | yearly
deriving DecidableEq, Repr

/-- Left-pad the decimal digits of `n` with zeros to width `k`
(date-fns `yyyy` / `MM` / `dd` tokens). -/
def padZeros (k n : ℕ) : String :=
  String.mk (List.replicate (k - (natDigits n).length) '0') ++ natToString n

/-- date-fns `format(date, 'yyyy-MM-dd')`. -/
def formatDateISO (d : Date) : String :=
  padZeros 4 d.year.toNat ++ "-" ++ padZeros 2 d.month.toNat ++ "-" ++ padZeros 2 d.day.toNat

def txTypeString : TxType → String
  | TxType.income => "income"
  | TxType.expense => "expense"

/-- `accounts.find(a => a.id === t.accountId)?.name || "Unknown"`. -/
def resolveAccountName (accounts : List Account) (accountId : String) : String :=
  match accounts.find? (fun a => a.id == accountId) with
  | some a => if a.name = "" then "Unknown" else a.name
  | none => "Unknown"

/-- The six cells of one CSV row, in order. -/
def rowFields (accounts : List Account) (t : Transaction) : List String :=
  [formatDateISO t.date, txTypeString t.type, ratToString t.amount,
    t.category, t.description, resolveAccountName accounts t.accountId]

/-- JavaScript `Array.prototype.join(sep)`. -/
def joinWith (sep : String) : List String → String
  | [] => ""
  | [x] => x
  | x :: y :: xs => x ++ sep ++ joinWith sep (y :: xs)

def csvHeader : List String := ["Date", "Type", "Amount", "Category", "Description", "Account"]

def csvRow (accounts : List Account) (t : Transaction) : String :=
  joinWith "," (rowFields accounts t)

def periodStartOf (reportType : ReportType) (selectedPeriod : Date) : Date :=
  match reportType with
  | ReportType.monthly => startOfMonth selectedPeriod
  | ReportType.yearly => startOfYear selectedPeriod

def periodEndOf (reportType : ReportType) (selectedPeriod : Date) : Date :=
  match reportType with
  | ReportType.monthly => endOfMonth selectedPeriod
  | ReportType.yearly => endOfYear selectedPeriod

def periodTransactionsOf (transactions : List Transaction) (reportType : ReportType)
    (selectedPeriod : Date) : List Transaction :=
  transactions.filter (fun t =>
    dateLe (periodStartOf reportType selectedPeriod) t.date &&
      dateLe t.date (periodEndOf reportType selectedPeriod))

/-- Outcome of the export: an error toast with nothing downloaded, or a
downloaded file with the given name and content. -/
inductive CsvResult where
  | error (msg : String)
  | downloaded (filename content : String)
deriving DecidableEq, Repr

def downloadCSV (transactions : List Transaction) (accounts : List Account)
    (reportType : ReportType) (selectedPeriod : Date) : CsvResult :=
  if transactions.isEmpty then CsvResult.error "No transactions to export"
  else if (periodTransactionsOf transactions reportType selectedPeriod).isEmpty then
    CsvResult.error "No transactions in selected period to export"
  else
    CsvResult.downloaded
      ("transactions-" ++ padZeros 4 selectedPeriod.year.toNat ++ "-" ++
        padZeros 2 selectedPeriod.month.toNat ++ ".csv")
      (joinWith "\n" (joinWith "," csvHeader ::
        (periodTransactionsOf transactions reportType selectedPeriod).map (csvRow accounts)))

/-- C8: the CSV export is computed purely from the loaded transaction list:
with no loaded transactions, or none in the selected period, it reports an
error and downloads nothing; otherwise it downloads a file whose content is
the fixed header row followed by exactly one row per in-period transaction,
carrying that transaction's date, type, amount, category, description and
resolved account name. -/
theorem downloadCSV_correct (transactions : List Transaction) (accounts : List Account)
    (reportType : ReportType) (selectedPeriod : Date) :
    (transactions = [] →
      downloadCSV transactions accounts reportType selectedPeriod =
        CsvResult.error "No transactions to export") ∧
    (transactions ≠ [] →
      periodTransactionsOf transactions reportType selectedPeriod = [] →
      downloadCSV transactions accounts reportType selectedPeriod =
        CsvResult.error "No transactions in selected period to export") ∧
    (transactions ≠ [] →
      periodTransactionsOf transactions reportType selectedPeriod ≠ [] →
      downloadCSV transactions accounts reportType selectedPeriod =
        CsvResult.downloaded
          ("transactions-" ++ padZeros 4 selectedPeriod.year.toNat ++ "-" ++
            padZeros 2 selectedPeriod.month.toNat ++ ".csv")
          (joinWith "\n" (joinWith "," csvHeader ::
            (periodTransactionsOf transactions reportType selectedPeriod).map
              (csvRow accounts))) ∧
      ((periodTransactionsOf transactions reportType selectedPeriod).map
          (csvRow accounts)).length =
        (periodTransactionsOf transactions reportType selectedPeriod).length) := by
  refine ⟨?_, ?_, ?_⟩
  · rintro rfl
    rfl
  · intro h1 h2
    unfold downloadCSV
    rw [if_neg (by simpa [List.isEmpty_iff] using h1), if_pos (by rw [h2]; rfl)]
  · intro h1 h2
    unfold downloadCSV
    rw [if_neg (by simpa [List.isEmpty_iff] using h1),
      if_neg (by simpa [List.isEmpty_iff] using h2)]
    exact ⟨rfl, by simp⟩

def acctW : Account := ⟨"a1", "HDFC", "bank", 5000, ⟨2024, 1, 1⟩⟩

theorem downloadCSV_witness :
    [txIncomeW] ≠ [] ∧
    periodTransactionsOf [txIncomeW] ReportType.yearly ⟨2024, 1, 1⟩ ≠ [] ∧
    downloadCSV [txIncomeW] [acctW] ReportType.yearly ⟨2024, 1, 1⟩ =
      CsvResult.downloaded "transactions-2024-01.csv"
        "Date,Type,Amount,Category,Description,Account\n2024-03-15,income,100,Salary,March salary,HDFC" := by
  have h1 : [txIncomeW] ≠ [] := by simp
  have h2 : periodTransactionsOf [txIncomeW] ReportType.yearly ⟨2024, 1, 1⟩ ≠ [] := by decide
  refine ⟨h1, h2, ?_⟩
  rw [((downloadCSV_correct [txIncomeW] [acctW] ReportType.yearly ⟨2024, 1, 1⟩).2.2 h1 h2).1]
  rfl

/-! ## CSV row round-trip -/

/-- JavaScript `row.split(',')`. -/
def commaSplit (s : String) : List String := (s.data.splitOn ',').map String.mk

theorem digitChar_cases (n : ℕ) :
    digitChar n = '0' ∨ digitChar n = '1' ∨ digitChar n = '2' ∨ digitChar n = '3' ∨
    digitChar n = '4' ∨ digitChar n = '5' ∨ digitChar n = '6' ∨ digitChar n = '7' ∨
    digitChar n = '8' ∨ digitChar n = '9' := by
  unfold digitChar
  split_ifs <;> simp

theorem mem_natDigitsAux (fuel : ℕ) (c : Char) :
    ∀ n, c ∈ natDigitsAux fuel n →
      c = '0' ∨ c = '1' ∨ c = '2' ∨ c = '3' ∨ c = '4' ∨ c = '5' ∨ c = '6' ∨ c = '7' ∨
      c = '8' ∨ c = '9' := by
  induction fuel with
  | zero =>
    intro n h
    simp [natDigitsAux] at h
  | succ fuel ih =>
    intro n h
    rw [natDigitsAux] at h
    by_cases h10 : n < 10
    · rw [if_pos h10] at h
      rw [List.mem_singleton] at h
      rw [h]
      exact digitChar_cases n
    · rw [if_neg h10, List.mem_append] at h
      rcases h with h | h
      · exact ih _ h
      · rw [List.mem_singleton] at h
        rw [h]
        exact digitChar_cases (n % 10)

theorem comma_not_mem_natToString (n : ℕ) : ',' ∉ (natToString n).data := by
  intro h
  have := mem_natDigitsAux (n + 1) ',' n (by simpa [natToString, natDigits] using h)
  simp at this

theorem comma_not_mem_padZeros (k n : ℕ) : ',' ∉ (padZeros k n).data := by
  intro h
  rw [padZeros, String.data_append] at h
  rcases List.mem_append.mp h with h | h
  · have h2 : ',' ∈ List.replicate (k - (natDigits n).length) '0' := h
    rw [List.mem_replicate] at h2
    exact absurd h2.2 (by decide)
  · exact comma_not_mem_natToString n h

theorem comma_not_mem_intToString (i : ℤ) : ',' ∉ (intToString i).data := by
  intro h
  rw [intToString] at h
  split_ifs at h
  · rw [String.data_append] at h
    rcases List.mem_append.mp h with h | h
    · simp at h
    · exact comma_not_mem_natToString _ h
  · exact comma_not_mem_natToString _ h

theorem comma_not_mem_ratToString (q : ℚ) : ',' ∉ (ratToString q).data := by
  intro h
  rw [ratToString] at h
  split_ifs at h
  · exact comma_not_mem_intToString _ h
  · rw [String.data_append, String.data_append] at h
    rcases List.mem_append.mp h with h | h
    · rcases List.mem_append.mp h with h | h
      · exact comma_not_mem_intToString _ h
      · simp at h
    · exact comma_not_mem_natToString _ h

theorem comma_not_mem_formatDateISO (d : Date) : ',' ∉ (formatDateISO d).data := by
  intro h
  rw [formatDateISO, String.data_append, String.data_append, String.data_append,
    String.data_append] at h
  rcases List.mem_append.mp h with h | h
  · rcases List.mem_append.mp h with h | h
    · rcases List.mem_append.mp h with h | h
      · rcases List.mem_append.mp h with h | h
        · exact comma_not_mem_padZeros _ _ h
        · simp at h
      · exact comma_not_mem_padZeros _ _ h
    · simp at h
  · exact comma_not_mem_padZeros _ _ h

theorem comma_not_mem_txTypeString (p : TxType) : ',' ∉ (txTypeString p).data := by
  cases p <;> decide

theorem intercalate_cons_cons {α : Type} (sep : List α) (a b : List α) (l : List (List α)) :
    List.intercalate sep (a :: b :: l) = a ++ sep ++ List.intercalate sep (b :: l) := by
  simp [List.intercalate, List.append_assoc]

theorem joinWith_data (sep : String) (l : List String) :
    (joinWith sep l).data = List.intercalate sep.data (l.map String.data) := by
  induction l with
  | nil => rfl
  | cons x xs ih =>
    cases xs with
    | nil => simp [joinWith, List.intercalate]
    | cons y ys =>
      rw [List.map_cons, List.map_cons, intercalate_cons_cons, ← List.map_cons, ← ih]
      simp only [joinWith, String.data_append]

/-- C10: for every transaction whose category, description and resolved
account name contain no comma and no newline, splitting the exported CSV
row on commas recovers exactly the six original cell values. -/
theorem csv_row_roundtrip (accounts : List Account) (t : Transaction)
    (h1 : ',' ∉ t.category.data) (h2 : '\n' ∉ t.category.data)
    (h3 : ',' ∉ t.description.data) (h4 : '\n' ∉ t.description.data)
    (h5 : ',' ∉ (resolveAccountName accounts t.accountId).data)
    (h6 : '\n' ∉ (resolveAccountName accounts t.accountId).data) :
    commaSplit (csvRow accounts t) = rowFields accounts t ∧
    (rowFields accounts t).length = 6 := by
  have hx : ∀ l ∈ (rowFields accounts t).map String.data, ',' ∉ l := by
    intro l hl
    simp only [rowFields, List.map_cons, List.map_nil, List.mem_cons,
      List.not_mem_nil, or_false] at hl
    rcases hl with rfl | rfl | rfl | rfl | rfl | rfl
    · exact comma_not_mem_formatDateISO t.date
    · exact comma_not_mem_txTypeString t.type
    · exact comma_not_mem_ratToString t.amount
    · exact h1
    · exact h3
    · exact h5
  have hsep : (",").data = [','] := rfl
  have hsplit : (csvRow accounts t).data.splitOn ',' = (rowFields accounts t).map String.data := by
    rw [csvRow, joinWith_data, hsep]
    exact List.splitOn_intercalate ((rowFields accounts t).map String.data) ',' hx
      (by simp [rowFields])
  constructor
  · rw [commaSplit, hsplit, List.map_map]
    have hid : (String.mk ∘ String.data) = fun s : String => s := funext fun s => rfl
    rw [hid, List.map_id']
  · simp [rowFields]

theorem csv_row_roundtrip_witness :
    (',' ∉ ("Salary").data) ∧ ('\n' ∉ ("Salary").data) ∧
    (',' ∉ ("March salary").data) ∧ ('\n' ∉ ("March salary").data) ∧
    (',' ∉ (resolveAccountName [acctW] "a1").data) ∧
    ('\n' ∉ (resolveAccountName [acctW] "a1").data) ∧
    commaSplit (csvRow [acctW] txIncomeW) = rowFields [acctW] txIncomeW :=
  ⟨by decide, by decide, by decide, by decide, by decide, by decide,
    (csv_row_roundtrip [acctW] txIncomeW (by decide) (by decide) (by decide) (by decide)
      (by decide) (by decide)).1⟩

end FinanceApp
